import Mathlib

/-!
Verification of the dynamic sales-report pipeline repository.

The development shallowly embeds the three core parts of the code base:

* `custom_tool_vendas.py` — `ExecutePythonCodeTool._run`, which executes a
  block of generated Python text in a fresh local namespace, extracts the
  conventionally named variable `resultado`, and absorbs every failure into
  a returned string;
* `crew_sales_report.py` — the two-task sequential crew (`SalesReportCrew`)
  with its generation task (`task_python_db_query`) and composition task
  (`write_task`);
* `db_config.py` — `get_db_connection_params`, which reads the four MariaDB
  connection parameters from the environment.

Python values are modelled only as far as the tool observes them: the tool
applies `str(...)` to the extracted value, so a value is anything with a
string form.  Execution of a program text is modelled by its observable
outcome — either a final local-variable namespace or a raised exception
carrying a type name and a message — since the tool branches on nothing
else.
-/

/-- A Python value, as far as `ExecutePythonCodeTool._run` observes it:
the tool only ever applies `str(...)` to it.  `vNone` is the Python value
`None` (whose string form is `"None"`); `vInt` and `vStr` cover the
integer and string results the generated scripts bind. -/
inductive PyValue where
  | vNone : PyValue
  | vInt (n : Int) : PyValue
  | vStr (s : String) : PyValue
deriving DecidableEq, Repr

/-- The Python `str(...)` form of a modelled value. -/
def pyStr : PyValue → String
  | PyValue.vNone => "None"
  | PyValue.vInt n => toString n
  | PyValue.vStr s => s

/-- A raised Python exception, as observed by the `except` clause of
`ExecutePythonCodeTool._run`: `type(e).__name__` and `str(e)`. -/
structure PyExc where
  typeName : String
  message : String
deriving DecidableEq, Repr

/-- A local-variable namespace: the `local_namespace` dict of
`ExecutePythonCodeTool._run`, as an association list from names to values. -/
def PyNamespace : Type := List (String × PyValue)

/-- The observable outcome of `exec(python_code, globals(), local_namespace)`:
either it completes, leaving a final local namespace, or it raises. -/
inductive ExecOutcome where
  | ok (ns : PyNamespace) : ExecOutcome
  | raised (e : PyExc) : ExecOutcome

/-- A program text in the single-invocation view, modelled extensionally by
what its execution does to the local namespace it is started in: top-level
assignments in text passed to `exec` with an explicit locals mapping bind
names in that mapping.  This view observes only the locals outcome, which
is all that the result extraction of one `_run` call reads; the shared
module globals dict that `exec` also receives is modelled separately by
`PyProgramG` below, since it is a cross-invocation channel. -/
def PyProgram : Type := PyNamespace → ExecOutcome

/-- The sentinel string of `ExecutePythonCodeTool._run`, returned when the
executed code never defined `resultado` (the default of
`local_namespace.get`). -/
def sentinel : String :=
  "Nenhum resultado capturado. A variável \"resultado\" não foi definida no código executado."

/-- The diagnostic string built by the `except` clause of
`ExecutePythonCodeTool._run`. -/
def execErrorMessage (e : PyExc) : String :=
  "Erro ao executar o código Python: " ++ e.typeName ++ ": " ++ e.message

/-- The part of `ExecutePythonCodeTool._run` after `exec` has been started:
on a raise, format the diagnostic; on completion, look up `resultado` in the
local namespace, defaulting to the sentinel, and return its string form
(`str` of an already-string default is itself). -/
def ExecutePythonCodeTool.runOutcome : ExecOutcome → String
  | ExecOutcome.raised e => execErrorMessage e
  | ExecOutcome.ok ns =>
    match List.lookup "resultado" ns with
    | some v => pyStr v
    | none => sentinel

/-- `ExecutePythonCodeTool._run` started from an arbitrary initial local
namespace (exposed so that the fresh-namespace choice of the code is a
visible fact rather than baked in). -/
def ExecutePythonCodeTool.runFrom (initialLocals : PyNamespace) (p : PyProgram) : String :=
  ExecutePythonCodeTool.runOutcome (p initialLocals)

/-- `ExecutePythonCodeTool._run`: the local namespace is created as a new
empty dict on every invocation, then the program text is executed and the
result extracted. -/
def ExecutePythonCodeTool.run (p : PyProgram) : String :=
  ExecutePythonCodeTool.runFrom [] p

/-- The empty program text: `exec` of `""` completes at once, binding
nothing, so the local namespace is left as it was. -/
def emptyProgram : PyProgram := fun ns => ExecOutcome.ok ns

/-- A program text consisting of the single assignment `resultado = v`:
it binds `resultado` in the local namespace and completes. -/
def assignResultado (v : PyValue) : PyProgram :=
  fun ns => ExecOutcome.ok (("resultado", v) :: ns)

/-! ## The shared module globals that `exec` also receives -/

/-- The module-level global namespace of `custom_tool_vendas.py`: the live
dict `globals()` that `_run` passes to `exec` on every invocation.  Unlike
`local_namespace` it is not recreated per call, so mutations made by one
executed program text persist into the next invocation. -/
def PyGlobals : Type := List (String × PyValue)

/-- The observable outcome of `exec(python_code, globals(), local_namespace)`
in the two-namespace view: completion or a raise, in both cases together
with the final state of the module globals dict (mutations performed before
a raise persist, because the dict is mutated in place). -/
inductive ExecOutcomeG where
  | ok (g : PyGlobals) (ns : PyNamespace) : ExecOutcomeG
  | raised (e : PyExc) (g : PyGlobals) : ExecOutcomeG

/-- A program text in the two-namespace view: what its execution does given
the current module globals and the locals mapping it is started in.
Ordinary top-level assignments bind names in the locals mapping, but a text
using a `global` declaration, or writing through `globals()`, binds names
in the shared globals dict. -/
def PyProgramG : Type := PyGlobals → PyNamespace → ExecOutcomeG

/-- The module globals dict as execution leaves it. -/
def globalsOf : ExecOutcomeG → PyGlobals
  | ExecOutcomeG.ok g _ => g
  | ExecOutcomeG.raised _ g => g

/-- The string `_run` builds from an outcome in the two-namespace view: the
same extraction as `runOutcome`, reading `resultado` from the final locals
on completion and formatting the diagnostic on a raise. -/
def resultOfG : ExecOutcomeG → String
  | ExecOutcomeG.ok _ ns => ExecutePythonCodeTool.runOutcome (ExecOutcome.ok ns)
  | ExecOutcomeG.raised e _ => ExecutePythonCodeTool.runOutcome (ExecOutcome.raised e)

/-- `ExecutePythonCodeTool._run` in the two-namespace view: the locals dict
is created fresh and empty, but the globals dict is the module's current
one; the invocation yields the result string together with the module
globals as the executed text left them. -/
def ExecutePythonCodeTool.runG (g : PyGlobals) (p : PyProgramG) : String × PyGlobals :=
  (resultOfG (p g []), globalsOf (p g []))

/-- Two successive invocations of `_run` on the tool module: the second
starts from the module globals the first left behind. -/
def ExecutePythonCodeTool.runTwiceG (g : PyGlobals) (p₁ p₂ : PyProgramG) :
    String × String × PyGlobals :=
  ((ExecutePythonCodeTool.runG g p₁).1,
   (ExecutePythonCodeTool.runG (ExecutePythonCodeTool.runG g p₁).2 p₂).1,
   (ExecutePythonCodeTool.runG (ExecutePythonCodeTool.runG g p₁).2 p₂).2)

/-- A program text leaves the module globals unchanged when it contains no
`global` declaration and no write through `globals()` — the ordinary case,
in which every assignment lands in the fresh locals dict. -/
def preservesGlobals (p : PyProgramG) : Prop :=
  ∀ g ns, globalsOf (p g ns) = g

/-- The assignment `resultado = v` in the two-namespace view: binds the
locals name, leaves the globals untouched. -/
def assignResultadoG (v : PyValue) : PyProgramG :=
  fun g ns => ExecOutcomeG.ok g (("resultado", v) :: ns)

/-- The program text `global x` then `x = "A"` then `resultado = "escrito"`:
the `global` declaration makes the assignment to `x` bind in the shared
module globals. -/
def setGlobalXtoA : PyProgramG :=
  fun g ns =>
    ExecOutcomeG.ok (("x", PyValue.vStr "A") :: g)
      (("resultado", PyValue.vStr "escrito") :: ns)

/-- The program text `resultado = x`: the name `x` is not local, so Python
resolves it in the module globals; when it is absent there as well, the
execution raises a `NameError`. -/
def readGlobalX : PyProgramG :=
  fun g ns =>
    match List.lookup "x" g with
    | some v => ExecOutcomeG.ok g (("resultado", v) :: ns)
    | none =>
      ExecOutcomeG.raised { typeName := "NameError", message := "name x is not defined" } g

/-- The empty program text in the two-namespace view. -/
def emptyProgramG : PyProgramG := fun g ns => ExecOutcomeG.ok g ns

/-! ## The two-task crew of `crew_sales_report.py` -/

/-- A task of the crew, as configured in `crew_sales_report.py`: the variable
name it is bound to in `_setup_crew`, the role of the agent it is assigned
to, and the indices — in the crew task list — of the tasks whose outputs
form its context list. -/
structure TaskSpec where
  name : String
  agentRole : String
  contextIdx : List Nat
deriving DecidableEq, Repr

/-- The generation task: assigned to the agent with role `Analista de Dados`,
with no explicit context. -/
def task_python_db_query : TaskSpec :=
  { name := "task_python_db_query", agentRole := "Analista de Dados", contextIdx := [] }

/-- The composition task: assigned to the agent with role `Redator`, with
context `[task_python_db_query]` — the task at index 0 of the crew list. -/
def write_task : TaskSpec :=
  { name := "write_task", agentRole := "Redator", contextIdx := [0] }

/-- The task list passed to `Crew(...)` in `_setup_crew`:
`tasks=[task_python_db_query, write_task]`, with `process=Process.sequential`. -/
def SalesReportCrew.tasks : List TaskSpec := [task_python_db_query, write_task]

/-- Modelled from the spec: the behaviour of an LLM-backed agent running one
task.  The repository holds only the prompt configuration; the generative
call itself is an external collaborator, so it is abstracted as a function
from the agent role, the query and the received context entries to the
textual output of the task. -/
def AgentBehavior : Type := String → String → List String → String

/-- Modelled from the spec: the `Process.sequential` execution of
`Crew.kickoff` (the orchestration machinery is the external crewai library,
not repository source).  Per the spec, the stages run strictly in list
order, each fully completing before the next starts, and each task receives
as context exactly the outputs of the tasks its `context` field names.  The
result records, for each task in order, its output and the context list it
received. -/
def runSequential (behave : AgentBehavior) (query : String) : List (String × List String) :=
  SalesReportCrew.tasks.foldl
    (fun done t =>
      let ctx := t.contextIdx.filterMap (fun i => (done.get? i).map Prod.fst)
      done ++ [(behave t.agentRole query ctx, ctx)])
    []

/-- `SalesReportCrew.kickoff`: runs the crew on the query and returns
`result.raw` — the raw output of the final task. -/
def SalesReportCrew.kickoff (behave : AgentBehavior) (query : String) : String :=
  match (runSequential behave query).getLast? with
  | some r => r.1
  | none => ""

/-- An observable stage event of one orchestrator invocation. -/
inductive StageEvent where
  | started (taskName : String) : StageEvent
  | finished (taskName : String) : StageEvent
deriving DecidableEq, Repr

/-- Modelled from the spec: the event trace of one sequential `kickoff` —
each task in list order emits its start and then its finish before the next
task starts. -/
def kickoffTrace : List StageEvent :=
  SalesReportCrew.tasks.foldl
    (fun tr t => tr ++ [StageEvent.started t.name, StageEvent.finished t.name])
    []

/-- A constant agent behaviour whose every output is a fixed report opening
with the salutation; used to instantiate the pipeline theorems. -/
def politeRedator : AgentBehavior := fun _ _ _ => "Oi Chefe, segue o relatório de vendas."

/-! ## `db_config.py` -/

/-- The process environment, as `os.getenv` observes it: a variable is
either unset (`none`) or set to a string. -/
def Env : Type := String → Option String

/-- Python truthiness of a value returned by `os.getenv`: `None` and the
empty string are falsy, every other string truthy. -/
def truthy : Option String → Bool
  | none => false
  | some s => !(s == "")

/-- `get_db_connection_params`: builds the four-entry params dict from the
environment and returns it; the second component records whether the
incomplete-configuration warning was printed (`not all(params.values())`).
The function always returns the mapping, warning or not. -/
def get_db_connection_params (env : Env) : List (String × Option String) × Bool :=
  let params := [("host", env "DB_HOST"), ("user", env "DB_USER"),
                 ("password", env "DB_PASSWORD"), ("database", env "DB_NAME")]
  (params, !(params.all (fun kv => truthy kv.2)))

/-- Whether the string `s` begins with the string `pre`, stated on the
underlying character lists. -/
def beginsWith (pre s : String) : Bool := s.data.take pre.data.length == pre.data

/-! ## Claims about the Execution Tool -/

/-- C1: for every program text whose execution raises an error,
`ExecutePythonCodeTool._run` catches it and returns the formatted diagnostic
string, which contains both the error type name and the error message; the
string is returned to the caller, so no failure inside the executed text
escapes as an exception. -/
theorem run_absorbs_raised_errors (p : PyProgram) (e : PyExc)
    (h : p [] = ExecOutcome.raised e) :
    ExecutePythonCodeTool.run p = execErrorMessage e ∧
    (∃ u v, u ++ e.typeName.data ++ v = (ExecutePythonCodeTool.run p).data) ∧
    (∃ u v, u ++ e.message.data ++ v = (ExecutePythonCodeTool.run p).data) := by
  have hr : ExecutePythonCodeTool.run p = execErrorMessage e := by
    unfold ExecutePythonCodeTool.run ExecutePythonCodeTool.runFrom
    rw [h]
    rfl
  refine ⟨hr, ?_, ?_⟩
  · refine ⟨("Erro ao executar o código Python: ").data, (": " ++ e.message).data, ?_⟩
    rw [hr]
    simp [execErrorMessage, String.data_append]
  · refine ⟨("Erro ao executar o código Python: " ++ e.typeName ++ ": ").data, [], ?_⟩
    rw [hr]
    simp [execErrorMessage, String.data_append]

/-- A program text whose execution raises a `ValueError` with message `x`. -/
def raisesValueError : PyProgram :=
  fun _ => ExecOutcome.raised { typeName := "ValueError", message := "x" }

/-- Witness for C1: running a program that raises `ValueError("x")` yields
the concrete diagnostic string. -/
theorem run_absorbs_raised_errors_witness :
    ExecutePythonCodeTool.run raisesValueError =
      "Erro ao executar o código Python: ValueError: x" := by
  have h := (run_absorbs_raised_errors raisesValueError
    { typeName := "ValueError", message := "x" } rfl).1
  rw [h]
  decide

/-- C2: for every program text whose execution completes binding `resultado`,
`ExecutePythonCodeTool._run` returns exactly the string form of that
variable's final value. -/
theorem run_returns_bound_resultado (p : PyProgram) (ns : PyNamespace) (v : PyValue)
    (h₁ : p [] = ExecOutcome.ok ns)
    (h₂ : List.lookup "resultado" ns = some v) :
    ExecutePythonCodeTool.run p = pyStr v := by
  simp [ExecutePythonCodeTool.run, ExecutePythonCodeTool.runFrom,
    ExecutePythonCodeTool.runOutcome, h₁, h₂]

/-- Witness for C2: a program binding `resultado` to the value of `1+1`
yields the result string `2`. -/
theorem run_returns_bound_resultado_witness :
    ExecutePythonCodeTool.run (assignResultado (PyValue.vInt 2)) = "2" := by
  have h := run_returns_bound_resultado (assignResultado (PyValue.vInt 2))
    [("resultado", PyValue.vInt 2)] (PyValue.vInt 2) rfl rfl
  rw [h]
  rfl

/-- C3: for every program text whose execution completes without ever
binding `resultado`, `ExecutePythonCodeTool._run` returns the fixed sentinel
string (which names the missing variable), and returns rather than raises. -/
theorem run_missing_resultado_sentinel (p : PyProgram) (ns : PyNamespace)
    (h₁ : p [] = ExecOutcome.ok ns)
    (h₂ : List.lookup "resultado" ns = none) :
    ExecutePythonCodeTool.run p = sentinel := by
  simp [ExecutePythonCodeTool.run, ExecutePythonCodeTool.runFrom,
    ExecutePythonCodeTool.runOutcome, h₁, h₂]

/-- Witness for C3: the empty program text binds nothing, so the run
returns the sentinel. -/
theorem run_missing_resultado_sentinel_witness :
    ExecutePythonCodeTool.run emptyProgram = sentinel :=
  run_missing_resultado_sentinel emptyProgram [] rfl rfl

/-- C4: `ExecutePythonCodeTool._run` is total and always produces a string,
for any program text; on the empty program text, which binds nothing, the
result is the sentinel string. -/
theorem run_always_returns_string :
    (∀ p : PyProgram, ∃ s : String, ExecutePythonCodeTool.run p = s) ∧
    ExecutePythonCodeTool.run emptyProgram = sentinel :=
  ⟨fun p => ⟨ExecutePythonCodeTool.run p, rfl⟩, rfl⟩

/-- C5 counterexample: the module globals dict is shared between
invocations, so a first program text binding `x` through a `global`
declaration makes `x` visible to and affect a second invocation: running
`resultado = x` after the globals-writing program yields `A`, while running
the very same program after the empty program yields a `NameError`
diagnostic — so the second result does depend on what the first program
bound. -/
theorem globals_leak_counterexample :
    (ExecutePythonCodeTool.runTwiceG [] setGlobalXtoA readGlobalX).2.1 = "A" ∧
    (ExecutePythonCodeTool.runTwiceG [] emptyProgramG readGlobalX).2.1 =
      execErrorMessage { typeName := "NameError", message := "name x is not defined" } ∧
    (ExecutePythonCodeTool.runTwiceG [] setGlobalXtoA readGlobalX).2.1 ≠
      (ExecutePythonCodeTool.runTwiceG [] emptyProgramG readGlobalX).2.1 :=
  ⟨rfl, rfl, by decide⟩

/-- C5 amended: the locals namespace is created fresh and empty on every
invocation of `_run`, so bindings made by ordinary assignment never carry
over — the first result depends only on the first program, and whenever
the first program text leaves the shared module globals unchanged (no
`global` declaration, no write through `globals()`), the second
invocation's result is exactly what running its program alone from the same
globals gives; the concrete pair of plain-assignment programs binding
`resultado` to `A` and to `B` returns exactly its own values.  Isolation is
not unconditional: the shared globals dict is a carry-over channel, as the
counterexample shows. -/
theorem run_fresh_locals_isolation (g : PyGlobals) (p₁ p₂ : PyProgramG)
    (h₁ : preservesGlobals p₁) :
    (ExecutePythonCodeTool.runTwiceG g p₁ p₂).1 = (ExecutePythonCodeTool.runG g p₁).1 ∧
    (ExecutePythonCodeTool.runTwiceG g p₁ p₂).2.1 = (ExecutePythonCodeTool.runG g p₂).1 ∧
    (ExecutePythonCodeTool.runTwiceG g (assignResultadoG (PyValue.vStr "A"))
        (assignResultadoG (PyValue.vStr "B"))).1 = "A" ∧
    (ExecutePythonCodeTool.runTwiceG g (assignResultadoG (PyValue.vStr "A"))
        (assignResultadoG (PyValue.vStr "B"))).2.1 = "B" := by
  refine ⟨rfl, ?_, rfl, rfl⟩
  have hg : (ExecutePythonCodeTool.runG g p₁).2 = g := h₁ g []
  show (ExecutePythonCodeTool.runG (ExecutePythonCodeTool.runG g p₁).2 p₂).1 =
    (ExecutePythonCodeTool.runG g p₂).1
  rw [hg]

/-- Witness for the amended C5: with the empty initial globals and the two
plain-assignment programs, the two invocations return exactly `A` and `B`,
each equal to its own stand-alone run. -/
theorem run_fresh_locals_isolation_witness :
    (ExecutePythonCodeTool.runTwiceG [] (assignResultadoG (PyValue.vStr "A"))
        (assignResultadoG (PyValue.vStr "B"))).1 =
      (ExecutePythonCodeTool.runG [] (assignResultadoG (PyValue.vStr "A"))).1 ∧
    (ExecutePythonCodeTool.runTwiceG [] (assignResultadoG (PyValue.vStr "A"))
        (assignResultadoG (PyValue.vStr "B"))).2.1 =
      (ExecutePythonCodeTool.runG [] (assignResultadoG (PyValue.vStr "B"))).1 ∧
    (ExecutePythonCodeTool.runTwiceG [] (assignResultadoG (PyValue.vStr "A"))
        (assignResultadoG (PyValue.vStr "B"))).1 = "A" ∧
    (ExecutePythonCodeTool.runTwiceG [] (assignResultadoG (PyValue.vStr "A"))
        (assignResultadoG (PyValue.vStr "B"))).2.1 = "B" :=
  run_fresh_locals_isolation [] (assignResultadoG (PyValue.vStr "A"))
    (assignResultadoG (PyValue.vStr "B")) (fun _ _ => rfl)

/-! ## Claims about the crew pipeline -/

/-- C6: in every pipeline invocation, the second task executed is
`write_task` and the context it receives is exactly the one-element list
holding the generation task's output. -/
theorem write_task_context_single_entry (behave : AgentBehavior) (query : String) :
    (runSequential behave query).get? 1 =
      some (behave write_task.agentRole query
              [behave task_python_db_query.agentRole query []],
            [behave task_python_db_query.agentRole query []]) ∧
    [behave task_python_db_query.agentRole query []].length = 1 :=
  ⟨rfl, rfl⟩

/-- C7: one `kickoff` runs exactly the two configured stages strictly in
sequence: the trace is generation start, generation finish, composition
start, composition finish; the generation stage finishes before the
composition stage starts, and the generation stage never starts again once
the composition stage has started. -/
theorem kickoff_strictly_sequential :
    kickoffTrace = [StageEvent.started task_python_db_query.name,
                    StageEvent.finished task_python_db_query.name,
                    StageEvent.started write_task.name,
                    StageEvent.finished write_task.name] ∧
    List.indexOf (StageEvent.finished task_python_db_query.name) kickoffTrace <
      List.indexOf (StageEvent.started write_task.name) kickoffTrace ∧
    StageEvent.started task_python_db_query.name ∉
      kickoffTrace.drop (List.indexOf (StageEvent.started write_task.name) kickoffTrace) :=
  ⟨rfl, by decide, by decide⟩

/-- C8: the report returned by `SalesReportCrew.kickoff` is the composition
task's output, so whenever the composition agent honours its configured
contract of opening with the fixed salutation, every invocation on a
non-empty query returns a report that begins with `Oi Chefe` and is
non-empty. -/
theorem kickoff_report_salutation (behave : AgentBehavior) (query : String)
    (hq : query ≠ "")
    (hred : ∀ q ctx, beginsWith "Oi Chefe" (behave write_task.agentRole q ctx) = true) :
    beginsWith "Oi Chefe" (SalesReportCrew.kickoff behave query) = true ∧
    SalesReportCrew.kickoff behave query ≠ "" := by
  have hk : SalesReportCrew.kickoff behave query =
      behave write_task.agentRole query [behave task_python_db_query.agentRole query []] := rfl
  constructor
  · rw [hk]
    exact hred _ _
  · rw [hk]
    intro he
    have h := hred query [behave task_python_db_query.agentRole query []]
    rw [he] at h
    exact absurd h (by decide)

/-- Witness for C8: with an agent behaviour that always emits a fixed
salutation-opening report, a concrete non-empty query yields a report with
the salutation, and the report is non-empty. -/
theorem kickoff_report_salutation_witness :
    beginsWith "Oi Chefe"
      (SalesReportCrew.kickoff politeRedator "Qual foi o produto mais vendido?") = true ∧
    SalesReportCrew.kickoff politeRedator "Qual foi o produto mais vendido?" ≠ "" :=
  kickoff_report_salutation politeRedator "Qual foi o produto mais vendido?"
    (by decide) (fun _ _ => rfl)

/-! ## Claim about the connection provider -/

/-- C9: for every environment, `get_db_connection_params` returns the
mapping with exactly the four keys `host`, `user`, `password`, `database`,
each entry being precisely the value of its environment variable (so an
entry is `none` exactly when the variable is unset); the function always
returns the mapping, and the warning flag is exactly the
not-all-values-truthy test of the source. -/
theorem get_db_connection_params_mapping (env : Env) :
    (get_db_connection_params env).1.map Prod.fst = ["host", "user", "password", "database"] ∧
    List.lookup "host" (get_db_connection_params env).1 = some (env "DB_HOST") ∧
    List.lookup "user" (get_db_connection_params env).1 = some (env "DB_USER") ∧
    List.lookup "password" (get_db_connection_params env).1 = some (env "DB_PASSWORD") ∧
    List.lookup "database" (get_db_connection_params env).1 = some (env "DB_NAME") ∧
    (List.lookup "host" (get_db_connection_params env).1 = some none ↔ env "DB_HOST" = none) ∧
    (List.lookup "user" (get_db_connection_params env).1 = some none ↔ env "DB_USER" = none) ∧
    (List.lookup "password" (get_db_connection_params env).1 = some none ↔
      env "DB_PASSWORD" = none) ∧
    (List.lookup "database" (get_db_connection_params env).1 = some none ↔
      env "DB_NAME" = none) ∧
    (get_db_connection_params env).2 =
      !((get_db_connection_params env).1.all (fun kv => truthy kv.2)) := by
  refine ⟨rfl, rfl, rfl, rfl, rfl, ?_, ?_, ?_, ?_, rfl⟩
  · show some (env "DB_HOST") = some none ↔ env "DB_HOST" = none
    exact Option.some_inj
  · show some (env "DB_USER") = some none ↔ env "DB_USER" = none
    exact Option.some_inj
  · show some (env "DB_PASSWORD") = some none ↔ env "DB_PASSWORD" = none
    exact Option.some_inj
  · show some (env "DB_NAME") = some none ↔ env "DB_NAME" = none
    exact Option.some_inj

/-! ## Claim about binding the output variable to None -/

/-- C10 counterexample: a program text binding `resultado` to the sentinel
text itself makes `_run` return the sentinel string even though `resultado`
is present in the final namespace, refuting, at this concrete input, the
part of the claim stating the sentinel is returned only when the name is
entirely absent. -/
theorem sentinel_collision_counterexample :
    ExecutePythonCodeTool.run (assignResultado (PyValue.vStr sentinel)) = sentinel ∧
    List.lookup "resultado" [("resultado", PyValue.vStr sentinel)] =
      some (PyValue.vStr sentinel) ∧
    List.lookup "resultado" [("resultado", PyValue.vStr sentinel)] ≠ none :=
  ⟨rfl, rfl, Option.some_ne_none _⟩

/-- C10 amended: binding `resultado` to `None` makes `_run` return `None`
(the string form of the value), which is not the sentinel; and whenever a
completed run returns the sentinel, either `resultado` is absent from the
final namespace or it is bound to a value whose string form equals the
sentinel text itself. -/
theorem resultado_none_gives_None_string (p : PyProgram) (ns : PyNamespace)
    (h₁ : p [] = ExecOutcome.ok ns) :
    (List.lookup "resultado" ns = some PyValue.vNone →
      ExecutePythonCodeTool.run p = "None" ∧ ExecutePythonCodeTool.run p ≠ sentinel) ∧
    (ExecutePythonCodeTool.run p = sentinel →
      List.lookup "resultado" ns = none ∨
      ∃ v, List.lookup "resultado" ns = some v ∧ pyStr v = sentinel) := by
  constructor
  · intro h₂
    have hr : ExecutePythonCodeTool.run p = "None" := by
      simp [ExecutePythonCodeTool.run, ExecutePythonCodeTool.runFrom,
        ExecutePythonCodeTool.runOutcome, h₁, h₂, pyStr]
    refine ⟨hr, ?_⟩
    rw [hr]
    decide
  · intro h₂
    cases hl : List.lookup "resultado" ns with
    | none => exact Or.inl rfl
    | some v =>
      refine Or.inr ⟨v, rfl, ?_⟩
      have hv : ExecutePythonCodeTool.run p = pyStr v := by
        simp [ExecutePythonCodeTool.run, ExecutePythonCodeTool.runFrom,
          ExecutePythonCodeTool.runOutcome, h₁, hl]
      exact hv.symm.trans h₂

/-- Witness for the amended C10: a program binding `resultado` to `None`
returns the string `None`, which differs from the sentinel. -/
theorem resultado_none_gives_None_string_witness :
    ExecutePythonCodeTool.run (assignResultado PyValue.vNone) = "None" ∧
    ExecutePythonCodeTool.run (assignResultado PyValue.vNone) ≠ sentinel :=
  (resultado_none_gives_None_string (assignResultado PyValue.vNone)
    [("resultado", PyValue.vNone)] rfl).1 rfl
